import Mathlib

/-!
# Verification of the paramstore koanf provider (src/paramstore.go)

Shallow embedding of the provider's core logic: the paginated snapshot
fetcher, the key transform and flat-map materialization of `Read`, and the
per-tick change detection of `Watch`.

External collaborators are abstracted exactly at the boundary the code uses
them:
* the SSM client call `GetParametersByPath` is modelled as a scripted
  sequence of responses, one consumed per call, each either an error or a
  page `{Parameters, NextToken}` (this mirrors a mocked client; the loop in
  the source only inspects those two response fields);
* `maps.Unflatten` (an external utility from the koanf library, out of the
  repository) is not modelled: the embedded `Read` returns the flat mapping
  `mp` the source builds and hands to `maps.Unflatten`, so every statement
  about keys is about that flat mapping;
* of `types.Parameter` only the fields the source dereferences are kept:
  `Name`, `Value`, `ARN`, `Version` (pointers in Go, dereferenced values
  here; `Version` is `int64` in Go, modelled as `Int` — only equality of
  versions is ever used).
-/

set_option autoImplicit false

/-- The fields of `types.Parameter` the source reads (paramstore.go lines
118, 130, 176): name, value, stable identity (ARN) and version. -/
structure Parameter where
  name : String
  value : String
  arn : String
  version : Int
deriving DecidableEq

/-- `ssm.GetParametersByPathInput` as used by the source (lines 88-91, 105):
path, decryption flag and continuation token. -/
structure GetParametersByPathInput where
  path : String
  withDecryption : Bool
  nextToken : Option String
deriving DecidableEq

/-- One successful response of `GetParametersByPath`: the page's parameters
and the continuation token (lines 103, 105). -/
structure PageResult where
  parameters : List Parameter
  nextToken : Option String
deriving DecidableEq

/-- The configuration fields of `Config` that the core logic reads
(delimiter and credentials feed only external collaborators). -/
structure Config where
  path : String
  withDecryption : Bool
deriving DecidableEq

/-- The provider state `ParamStore` (lines 29-35): its config, the mutable
SSM input (holding the pagination cursor), the stored snapshot `params`,
and the optional key transform `cb`. -/
structure ParamStore where
  config : Config
  input : GetParametersByPathInput
  params : List Parameter
  cb : Option (String → String)

/-- A scripted client: the responses, consumed one per
`GetParametersByPath` call. -/
abbrev Script := List (Except String PageResult)

/-- Result of one full pagination pass: the accumulated parameters or the
first error, the SSM input as left mutated by the pass, and the log of
continuation tokens passed to the client, one entry per call made. -/
structure FetchResult where
  result : Except String (List Parameter)
  input : GetParametersByPathInput
  calls : List (Option String)

/-- The pagination loop shared by `Read` (lines 96-111) and each `Watch`
tick (lines 154-170): call the client with the current input; on error stop
(the input keeps the token written by the previous iteration); on success
append the page's parameters, store the response's token into the input,
and stop when that token is nil. An exhausted script stops the pass with a
sentinel error and no further call. -/
def fetchPages : Script → GetParametersByPathInput → List Parameter → FetchResult
  | [], input, _ => ⟨Except.error "script exhausted", input, []⟩
  | Except.error e :: _, input, _ => ⟨Except.error e, input, [input.nextToken]⟩
  | Except.ok ⟨pageParams, none⟩ :: _, input, acc =>
    ⟨Except.ok (acc ++ pageParams), { input with nextToken := none }, [input.nextToken]⟩
  | Except.ok ⟨pageParams, some t⟩ :: rest, input, acc =>
    let fr := fetchPages rest { input with nextToken := some t } (acc ++ pageParams)
    ⟨fr.result, fr.input, input.nextToken :: fr.calls⟩

/-- The key transform step of `Read` (lines 118-123): apply `cb` when
provided, else use the raw name. -/
def transformKey (cb : Option (String → String)) (name : String) : String :=
  match cb with
  | none => name
  | some f => f name

/-- Go map assignment `mp[key] = value` on the association-list model:
overwrite an existing key in place, else append. -/
def mapSet (mp : List (String × String)) (k v : String) : List (String × String) :=
  if mp.any (fun kv => kv.1 == k) then
    mp.map (fun kv => if kv.1 == k then (k, v) else kv)
  else mp ++ [(k, v)]

/-- The materialization loop of `Read` (lines 115-131): transform each
name, abort with the empty-key error when a transformed key is `""`, else
assign into the flat map. -/
def buildMap (cb : Option (String → String)) (mp : List (String × String)) :
    List Parameter → Except String (List (String × String))
  | [] => Except.ok mp
  | p :: rest =>
    let key := transformKey cb p.name
    if key = "" then Except.error "transformed key is empty"
    else buildMap cb (mapSet mp key p.value) rest

/-- The fresh SSM input `Read` builds at lines 88-91: configured path and
decryption flag, and no continuation token. -/
def readInput (cfg : Config) : GetParametersByPathInput :=
  ⟨cfg.path, cfg.withDecryption, none⟩

/-- Result of `Read`: the flat mapping (or error), the provider state after
the call, and the log of tokens passed to the client (one per call). -/
structure ReadResult where
  result : Except String (List (String × String))
  store : ParamStore
  calls : List (Option String)

/-- `Read` (lines 81-134): fail on empty path before any client call;
rebuild `ps.input` fresh; run the pagination loop; on fetch error return it
(the input keeps the loop's mutations, the snapshot is untouched); on
success store the snapshot into `ps.params` (line 113, before any key
check), then materialize the flat map, which may still fail on an empty
transformed key. -/
def ParamStore.Read (ps : ParamStore) (script : Script) : ReadResult :=
  if ps.config.path = "" then ⟨Except.error "no parameter path provided", ps, []⟩
  else
    let fr := fetchPages script (readInput ps.config) []
    match fr.result with
    | Except.error e => ⟨Except.error e, { ps with input := fr.input }, fr.calls⟩
    | Except.ok params =>
      let ps' : ParamStore := { ps with input := fr.input, params := params }
      match buildMap ps.cb [] params with
      | Except.error e => ⟨Except.error e, ps', fr.calls⟩
      | Except.ok mp => ⟨Except.ok mp, ps', fr.calls⟩

/-- The inner loop of the change detection (lines 175-179): scan the stored
parameters for one with the same ARN and a different version; each match
appends the new parameter once. -/
def scanPrev (prev : List Parameter) (n : Parameter) : List Parameter :=
  match prev with
  | [] => []
  | p :: rest =>
    (if p.arn = n.arn ∧ n.version ≠ p.version then [n] else []) ++ scanPrev rest n

/-- The change detection of a `Watch` tick (lines 173-180): for each newly
fetched parameter, scan the previously stored ones for a same-ARN,
different-version match. -/
def detectChanges (prev newParams : List Parameter) : List Parameter :=
  match newParams with
  | [] => []
  | n :: rest => scanPrev prev n ++ detectChanges prev rest

/-- One callback invocation of `Watch` (lines 158, 184): either
`cb(updatedParams, nil)` or `cb(nil, err)`. -/
inductive CallbackCall where
  | event (changed : List Parameter)
  | failure (e : String)
deriving DecidableEq

/-- One tick of the `Watch` loop (lines 147-186): run the pagination loop
starting from the CURRENT `ps.input` (not rebuilt); on fetch error invoke
the callback once with the error and move to the next tick (the input keeps
the tokens of the pages fetched before the failure; `ps.params` is
untouched); on success run the change detection against the stored
snapshot and invoke the callback only when the result is non-empty. The
source never writes `ps.params` in this loop. -/
def watchTick (ps : ParamStore) (script : Script) : ParamStore × List CallbackCall :=
  let fr := fetchPages script ps.input []
  match fr.result with
  | Except.error e => ({ ps with input := fr.input }, [CallbackCall.failure e])
  | Except.ok params =>
    let updatedParams := detectChanges ps.params params
    ({ ps with input := fr.input },
      if updatedParams.length > 0 then [CallbackCall.event updatedParams] else [])

/-- A run of the `Watch` loop: one script per tick, collecting each tick's
callback invocations. -/
def watchTicks (ps : ParamStore) : List Script → ParamStore × List (List CallbackCall)
  | [] => (ps, [])
  | s :: rest =>
    let t := watchTick ps s
    let r := watchTicks t.1 rest
    (r.1, t.2 :: r.2)

/-! ## Change detector: membership characterization -/

/-- Membership in the inner scan: a record comes out iff it is the scanned
new record and some stored parameter has its ARN with another version. -/
theorem mem_scanPrev (prev : List Parameter) (n r : Parameter) :
    r ∈ scanPrev prev n ↔
      r = n ∧ ∃ p ∈ prev, p.arn = n.arn ∧ n.version ≠ p.version := by
  induction prev with
  | nil => simp [scanPrev]
  | cons p rest ih =>
    simp only [scanPrev]
    constructor
    · intro hmem
      rcases List.mem_append.mp hmem with hm | hm
      · by_cases h : p.arn = n.arn ∧ n.version ≠ p.version
        · rw [if_pos h] at hm
          have hr := List.mem_singleton.mp hm
          exact ⟨hr, p, List.mem_cons_self p rest, h⟩
        · rw [if_neg h] at hm
          exact absurd hm (List.not_mem_nil r)
      · rcases ih.mp hm with ⟨hr, q, hq, hqa, hqv⟩
        exact ⟨hr, q, List.mem_cons_of_mem p hq, hqa, hqv⟩
    · rintro ⟨hr, q, hq, hqa, hqv⟩
      rcases List.mem_cons.mp hq with hq | hq
      · subst hq
        exact List.mem_append.mpr (Or.inl (by rw [if_pos ⟨hqa, hqv⟩]; simp [hr]))
      · exact List.mem_append.mpr (Or.inr (ih.mpr ⟨hr, q, hq, hqa, hqv⟩))

/-- Membership in the change detection result. -/
theorem mem_detectChanges (prev newParams : List Parameter) (r : Parameter) :
    r ∈ detectChanges prev newParams ↔
      r ∈ newParams ∧ ∃ p ∈ prev, p.arn = r.arn ∧ r.version ≠ p.version := by
  induction newParams with
  | nil => simp [detectChanges]
  | cons n rest ih =>
    simp only [detectChanges, List.mem_append, mem_scanPrev, ih, List.mem_cons]
    constructor
    · rintro (⟨hr, hp⟩ | ⟨hr, hp⟩)
      · subst hr; exact ⟨Or.inl rfl, hp⟩
      · exact ⟨Or.inr hr, hp⟩
    · rintro ⟨hr | hr, hp⟩
      · subst hr; exact Or.inl ⟨rfl, hp⟩
      · exact Or.inr ⟨hr, hp⟩

/-- With no stored baseline the inner scan never matches. -/
theorem detectChanges_nil_prev (newParams : List Parameter) :
    detectChanges [] newParams = [] := by
  induction newParams with
  | nil => rfl
  | cons n rest ih => simp [detectChanges, scanPrev, ih]

/-! ## Pagination and tick helper lemmas -/

/-- A pass whose script is pages that all carry a continuation token and
then a failing call returns that call's error. -/
theorem fetchPages_error_after_pages (e : String) (rest : Script) :
    ∀ (pre : List PageResult), (∀ pg ∈ pre, (PageResult.nextToken pg).isSome = true) →
      ∀ (input : GetParametersByPathInput) (acc : List Parameter),
        (fetchPages (pre.map Except.ok ++ Except.error e :: rest) input acc).result =
          Except.error e := by
  intro pre
  induction pre with
  | nil => intro _ input acc; rfl
  | cons pg pre ih =>
    intro hpre input acc
    have htok := hpre pg (List.mem_cons_self pg pre)
    cases pg with
    | mk pageParams tok =>
      cases tok with
      | none => simp at htok
      | some t =>
        simp only [List.map_cons, List.cons_append, fetchPages]
        exact ih (fun q hq => hpre q (List.mem_cons_of_mem _ hq)) _ _

/-- Any call of the pagination loop on a non-empty script passes the
current input's continuation token to the first client call. -/
theorem fetchPages_calls_head (r : Except String PageResult) (rest : Script)
    (input : GetParametersByPathInput) (acc : List Parameter) :
    (fetchPages (r :: rest) input acc).calls.head? = some input.nextToken := by
  cases r with
  | error e => rfl
  | ok page =>
    cases page with
    | mk pageParams tok =>
      cases tok with
      | none => rfl
      | some t => rfl

/-- Unfolding a `Watch` tick whose fetch fails: the callback is invoked
exactly once with the error, and only the input is touched. -/
theorem watchTick_of_error (ps : ParamStore) (script : Script) (e : String)
    (h : (fetchPages script ps.input []).result = Except.error e) :
    watchTick ps script =
      ({ ps with input := (fetchPages script ps.input []).input },
        [CallbackCall.failure e]) := by
  unfold watchTick
  simp only [h]

/-- Unfolding a `Watch` tick whose fetch succeeds: the callback fires only
with a non-empty change set, and only the input is touched. -/
theorem watchTick_of_ok (ps : ParamStore) (script : Script) (params : List Parameter)
    (h : (fetchPages script ps.input []).result = Except.ok params) :
    watchTick ps script =
      ({ ps with input := (fetchPages script ps.input []).input },
        if (detectChanges ps.params params).length > 0
        then [CallbackCall.event (detectChanges ps.params params)] else []) := by
  unfold watchTick
  simp only [h]

/-- If some fetched parameter's transformed key is empty, the
materialization loop aborts with the empty-key error, whatever map has
been accumulated. -/
theorem buildMap_error_of_empty_key (cb : Option (String → String)) :
    ∀ (params : List Parameter), (∃ p ∈ params, transformKey cb p.name = "") →
      ∀ (mp : List (String × String)),
        buildMap cb mp params = Except.error "transformed key is empty" := by
  intro params
  induction params with
  | nil =>
    intro h mp
    rcases h with ⟨p, hp, _⟩
    exact absurd hp (List.not_mem_nil p)
  | cons p rest ih =>
    intro h mp
    rcases h with ⟨q, hq, hqe⟩
    by_cases hk : transformKey cb p.name = ""
    · unfold buildMap
      simp only [hk, if_true, reduceIte]
    · unfold buildMap
      simp only [hk, reduceIte]
      rcases List.mem_cons.mp hq with hq2 | hq2
      · subst hq2; exact absurd hqe hk
      · exact ih ⟨q, hq2, hqe⟩ _

/-- With a non-empty path, `Read` reports exactly the calls of its
pagination pass, whatever the outcome. -/
theorem Read_calls (ps : ParamStore) (script : Script)
    (hpath : ps.config.path ≠ "") :
    (ps.Read script).calls = (fetchPages script (readInput ps.config) []).calls := by
  unfold ParamStore.Read
  rw [if_neg hpath]
  cases h : (fetchPages script (readInput ps.config) []).result with
  | error e => simp only [h]
  | ok params =>
    cases h2 : buildMap ps.cb [] params with
    | error e => simp only [h, h2]
    | ok mp => simp only [h, h2]

/-! ## Concrete fixtures -/

/-- Parameter under `/app/` at version 1. -/
def pA1 : Parameter := ⟨"/app/a", "1", "arnA", 1⟩

/-- The same stable identity as `pA1`, at version 2. -/
def pA2 : Parameter := ⟨"/app/a", "2", "arnA", 2⟩

/-- An unrelated parameter. -/
def pB1 : Parameter := ⟨"/app/b", "1", "arnB", 1⟩

/-! ## Claims about the change detector -/

/-- C2: the change detection result contains exactly the fetched records
whose ARN appears among the stored ones with a strictly different version,
none whose ARN is absent, and it is empty when the stored snapshot is
empty. -/
theorem detectChanges_membership_spec (P N : List Parameter) :
    (∀ r, r ∈ detectChanges P N ↔
        r ∈ N ∧ ∃ p ∈ P, p.arn = r.arn ∧ r.version ≠ p.version) ∧
    (P = [] → detectChanges P N = []) := by
  refine ⟨fun r => mem_detectChanges P N r, fun h => ?_⟩
  subst h
  exact detectChanges_nil_prev N

/-- Witness for C2 at concrete snapshots: a version bump on a stored ARN
is a member of the result, and an empty baseline gives an empty result. -/
theorem detectChanges_membership_spec_witness :
    pA2 ∈ detectChanges [pA1] [pA2, pB1] ∧
    detectChanges ([] : List Parameter) [pA2] = [] := by
  refine ⟨((detectChanges_membership_spec [pA1] [pA2, pB1]).1 pA2).mpr ?_,
    (detectChanges_membership_spec [] [pA2]).2 rfl⟩
  exact ⟨by decide, pA1, by decide, by decide⟩

/-- A snapshot holding the same stable identity twice at different
versions. -/
def dupP : List Parameter := [⟨"/app/d", "1", "arnD", 1⟩, ⟨"/app/d", "2", "arnD", 2⟩]

/-- C4 counterexample: comparing the duplicate-identity snapshot `dupP`
with itself yields a non-empty change set, so ChangeDetector(P, P) = ∅
fails for this P. -/
theorem detectChanges_self_not_empty_on_duplicate_identity :
    detectChanges dupP dupP ≠ [] := by decide

/-- C4 amended: for every snapshot in which records sharing a stable
identity share a version (in particular any snapshot whose identities are
distinct), comparing it with itself yields no changes. -/
theorem detectChanges_self_empty_of_identity_functional (P : List Parameter)
    (h : ∀ p ∈ P, ∀ q ∈ P, p.arn = q.arn → p.version = q.version) :
    detectChanges P P = [] := by
  rw [List.eq_nil_iff_forall_not_mem]
  intro r hr
  rcases (mem_detectChanges P P r).mp hr with ⟨hrP, p, hp, hpa, hpv⟩
  exact hpv (h r hrP p hp hpa.symm)

/-- Witness for the amended C4 at a concrete duplicate-free snapshot. -/
theorem detectChanges_self_empty_of_identity_functional_witness :
    detectChanges [pA1, pB1] [pA1, pB1] = [] :=
  detectChanges_self_empty_of_identity_functional [pA1, pB1] (by decide)

/-! ## Claims about Watch ticks -/

/-- C8: in any tick, at most one callback invocation occurs, and an event
invocation always carries a non-empty change set. -/
theorem watch_callback_at_most_once_and_nonempty (ps : ParamStore) (script : Script) :
    (watchTick ps script).2.length ≤ 1 ∧
    (∀ l, CallbackCall.event l ∈ (watchTick ps script).2 → l ≠ []) := by
  cases hfr : (fetchPages script ps.input []).result with
  | error e =>
    rw [watchTick_of_error ps script e hfr]
    exact ⟨by simp, by intro l hl; simp at hl⟩
  | ok params =>
    rw [watchTick_of_ok ps script params hfr]
    by_cases h : (detectChanges ps.params params).length > 0
    · rw [if_pos h]
      refine ⟨by simp, ?_⟩
      intro l hl
      have h2 := CallbackCall.event.inj (List.mem_singleton.mp hl)
      subst h2
      intro hnil
      rw [hnil] at h
      simp at h
    · rw [if_neg h]
      exact ⟨by simp, by intro l hl; simp at hl⟩

/-- Store whose snapshot holds `pA1`, cursor clear. -/
def psW : ParamStore := ⟨⟨"/app/", false⟩, ⟨"/app/", false, none⟩, [pA1], none⟩

/-- A single-page tick script serving `pA2`. -/
def scrW : Script := [Except.ok ⟨[pA2], none⟩]

/-- Witness for C8 at a concrete tick that does fire an event. -/
theorem watch_callback_at_most_once_and_nonempty_witness :
    (watchTick psW scrW).2.length ≤ 1 ∧ [pA2] ≠ ([] : List Parameter) :=
  ⟨(watch_callback_at_most_once_and_nonempty psW scrW).1,
   (watch_callback_at_most_once_and_nonempty psW scrW).2 [pA2] (by decide)⟩

/-- Store seeded by a `Read` that stored `pA1`, cursor clear. -/
def psC1 : ParamStore := ⟨⟨"/app/", false⟩, ⟨"/app/", false, none⟩, [pA1], none⟩

/-- A one-page tick script serving the bumped parameter `pA2`. -/
def tickA2 : Script := [Except.ok ⟨[pA2], none⟩]

/-- C1 (code bug): after tick 1's successful fetch of `pA2` the stored
snapshot is NOT replaced — it stays at `[pA1]` — so tick 2, fetching the
identical snapshot again, re-reports the same change event instead of
comparing against the immediately preceding fetch and staying silent. The
source's Watch loop never writes `ps.params`. -/
theorem watch_never_replaces_snapshot_repeated_event :
    (watchTicks psC1 [tickA2, tickA2]).2 =
      [[CallbackCall.event [pA2]], [CallbackCall.event [pA2]]] ∧
    (watchTicks psC1 [tickA2, tickA2]).1.params = [pA1] :=
  ⟨rfl, rfl⟩

/-- Store with an empty cursor before the failing tick of the C3
counterexample. -/
def psC3 : ParamStore := ⟨⟨"/app/", false⟩, ⟨"/app/", false, none⟩, [pA1], none⟩

/-- A tick script whose first page succeeds with continuation token `t1`
and whose second call fails. -/
def scrC3 : Script := [Except.ok ⟨[pB1], some "t1"⟩, Except.error "boom"]

/-- C3 counterexample: a tick failing on its second page invokes the
callback once with the error, yet the pagination cursor HAS been altered —
it now holds the first page's token `t1` where it held none before — so
the next tick's pagination input differs from before the failure. -/
theorem watch_failed_tick_cursor_altered :
    (watchTick psC3 scrC3).2 = [CallbackCall.failure "boom"] ∧
    psC3.input.nextToken = none ∧
    (watchTick psC3 scrC3).1.input.nextToken = some "t1" :=
  ⟨rfl, rfl, rfl⟩

/-- C3 amended: in a tick where the pages before the failure all carry a
continuation token and then a call fails, the callback is invoked exactly
once, with the error, and the stored snapshot is not altered (so the next
tick's diff base is unchanged); the pagination cursor, however, keeps the
token of the last successfully fetched page. -/
theorem watch_failed_tick_callback_once_snapshot_unchanged (ps : ParamStore)
    (pre : List PageResult) (e : String) (rest : Script)
    (hpre : ∀ pg ∈ pre, (PageResult.nextToken pg).isSome = true) :
    (watchTick ps (pre.map Except.ok ++ Except.error e :: rest)).2 =
      [CallbackCall.failure e] ∧
    (watchTick ps (pre.map Except.ok ++ Except.error e :: rest)).1.params =
      ps.params := by
  have herr := fetchPages_error_after_pages e rest pre hpre ps.input []
  rw [watchTick_of_error ps _ e herr]
  exact ⟨rfl, rfl⟩

/-- Witness for the amended C3 at the concrete failing tick. -/
theorem watch_failed_tick_callback_once_snapshot_unchanged_witness :
    (watchTick psC3 ([(⟨[pB1], some "t1"⟩ : PageResult)].map Except.ok ++
        Except.error "boom" :: [])).2 = [CallbackCall.failure "boom"] ∧
    (watchTick psC3 ([(⟨[pB1], some "t1"⟩ : PageResult)].map Except.ok ++
        Except.error "boom" :: [])).1.params = psC3.params :=
  watch_failed_tick_callback_once_snapshot_unchanged psC3
    [⟨[pB1], some "t1"⟩] "boom" [] (by decide)

/-! ## Claims about Read -/

/-- The five records served by the three-page script of C5. -/
def r1 : Parameter := ⟨"/app/k1", "v1", "arn1", 1⟩

/-- Second record of page one. -/
def r2 : Parameter := ⟨"/app/k2", "v2", "arn2", 1⟩

/-- First record of page two. -/
def r3 : Parameter := ⟨"/app/k3", "v3", "arn3", 1⟩

/-- Second record of page two. -/
def r4 : Parameter := ⟨"/app/k4", "v4", "arn4", 1⟩

/-- The single record of page three. -/
def r5 : Parameter := ⟨"/app/k5", "v5", "arn5", 1⟩

/-- Store for C5: configured path, a key transform, empty state. -/
def psC5 : ParamStore :=
  ⟨⟨"/app/", false⟩, ⟨"", false, none⟩, [], some (fun s => "cfg:" ++ s)⟩

/-- The three-page script of C5: pages of 2, 2 and 1 records, continuation
tokens t1 then t2 then nil. -/
def scrC5 : Script :=
  [Except.ok ⟨[r1, r2], some "t1"⟩, Except.ok ⟨[r3, r4], some "t2"⟩,
   Except.ok ⟨[r5], none⟩]

/-- C5: on the three-page script, Read makes exactly three collaborator
calls in sequence — with no token, then t1, then t2 — and returns the flat
mapping holding all five transformed keys. -/
theorem read_three_pages_five_keys :
    (psC5.Read scrC5).result = Except.ok
      [("cfg:/app/k1", "v1"), ("cfg:/app/k2", "v2"), ("cfg:/app/k3", "v3"),
       ("cfg:/app/k4", "v4"), ("cfg:/app/k5", "v5")] ∧
    (psC5.Read scrC5).calls = [none, some "t1", some "t2"] :=
  ⟨rfl, rfl⟩

/-- C6: with an empty configured path, Read fails with the configuration
error and the collaborator is called zero times, whatever the script could
have served. -/
theorem read_empty_path_no_calls (ps : ParamStore) (script : Script)
    (h : ps.config.path = "") :
    (ps.Read script).result = Except.error "no parameter path provided" ∧
    (ps.Read script).calls = [] := by
  unfold ParamStore.Read
  rw [if_pos h]
  exact ⟨rfl, rfl⟩

/-- Store with an empty path but non-trivial leftover state. -/
def psC6 : ParamStore := ⟨⟨"", true⟩, ⟨"", true, some "stale"⟩, [pA1], none⟩

/-- Witness for C6: the empty-path store makes no call even against a
script that could serve pages. -/
theorem read_empty_path_no_calls_witness :
    (psC6.Read scrC5).result = Except.error "no parameter path provided" ∧
    (psC6.Read scrC5).calls = [] :=
  read_empty_path_no_calls psC6 scrC5 rfl

/-- C7: when the fetch succeeds but the caller-supplied transform yields
the empty string for some fetched record, Read returns the empty-key error
and no mapping. -/
theorem read_empty_transformed_key_errors (ps : ParamStore) (script : Script)
    (params : List Parameter)
    (hpath : ps.config.path ≠ "")
    (hfetch : (fetchPages script (readInput ps.config) []).result = Except.ok params)
    (hkey : ∃ p ∈ params, transformKey ps.cb p.name = "") :
    (ps.Read script).result = Except.error "transformed key is empty" := by
  unfold ParamStore.Read
  rw [if_neg hpath]
  simp only [hfetch, buildMap_error_of_empty_key ps.cb params hkey []]

/-- A record whose name the C7/C9 transform maps to the empty string. -/
def pBad : Parameter := ⟨"/app/bad", "9", "arnBad", 3⟩

/-- Store whose transform erases exactly the name of `pBad`. -/
def psC7 : ParamStore :=
  ⟨⟨"/app/", false⟩, ⟨"/app/", false, none⟩, [],
    some (fun s => if s == "/app/bad" then "" else s)⟩

/-- One-page script serving a good record and then `pBad`. -/
def scrC7 : Script := [Except.ok ⟨[pA1, pBad], none⟩]

/-- Witness for C7 at the concrete store and script. -/
theorem read_empty_transformed_key_errors_witness :
    (psC7.Read scrC7).result = Except.error "transformed key is empty" :=
  read_empty_transformed_key_errors psC7 scrC7 [pA1, pBad] (by decide) rfl
    ⟨pBad, by decide, rfl⟩

/-- C9: on that same empty-key failure path, the stored snapshot has
already been replaced by the newly fetched records before the error is
returned — the failure is not atomic with respect to Store State. -/
theorem read_empty_key_error_snapshot_already_replaced (ps : ParamStore)
    (script : Script) (params : List Parameter)
    (hpath : ps.config.path ≠ "")
    (hfetch : (fetchPages script (readInput ps.config) []).result = Except.ok params)
    (hkey : ∃ p ∈ params, transformKey ps.cb p.name = "") :
    (ps.Read script).store.params = params ∧
    (ps.Read script).result = Except.error "transformed key is empty" := by
  unfold ParamStore.Read
  rw [if_neg hpath]
  simp only [hfetch, buildMap_error_of_empty_key ps.cb params hkey []]
  exact ⟨trivial, trivial⟩

/-- Store for the C9 witness: old snapshot `[pA1]`, transform erasing the
name of `pBad`. -/
def psC9 : ParamStore :=
  ⟨⟨"/app/", false⟩, ⟨"/app/", false, none⟩, [pA1],
    some (fun s => if s == "/app/bad" then "" else s)⟩

/-- One-page script serving only `pBad`. -/
def scrC9 : Script := [Except.ok ⟨[pBad], none⟩]

/-- Witness for C9: the failed Read leaves the fetched `[pBad]` as the
stored snapshot in place of the old `[pA1]`. -/
theorem read_empty_key_error_snapshot_already_replaced_witness :
    (psC9.Read scrC9).store.params = [pBad] ∧
    (psC9.Read scrC9).result = Except.error "transformed key is empty" :=
  read_empty_key_error_snapshot_already_replaced psC9 scrC9 [pBad] (by decide)
    rfl ⟨pBad, by decide, rfl⟩

/-- C10: whatever cursor the store holds, a Read that makes at least one
collaborator call passes no continuation token to its first call — the
pagination input is rebuilt fresh from the configured path. -/
theorem read_starts_with_nil_token (ps : ParamStore) (script : Script)
    (r : Except String PageResult) (rest : Script)
    (hpath : ps.config.path ≠ "") (hscript : script = r :: rest) :
    (ps.Read script).calls.head? = some none := by
  subst hscript
  rw [Read_calls ps (r :: rest) hpath, fetchPages_calls_head]
  rfl

/-- Store for the C10 witness, holding a stale cursor from an aborted
pass. -/
def psC10 : ParamStore := ⟨⟨"/app/", false⟩, ⟨"/app/", false, some "stale"⟩, [pA1], none⟩

/-- One-page script for the C10 witness. -/
def scrC10 : Script := [Except.ok ⟨[pB1], none⟩]

/-- Witness for C10: despite the stale cursor, the first call of Read
carries no token. -/
theorem read_starts_with_nil_token_witness :
    (psC10.Read scrC10).calls.head? = some none :=
  read_starts_with_nil_token psC10 scrC10 (Except.ok ⟨[pB1], none⟩) []
    (by decide) rfl
